import Mathlib

/-!
# Broker-mediated request/reply: gateways and workers

A shallow embedding of the four programs of the repository:

* `Service1.handlePedido` and `ServicoPedido.handlePedido`, the two HTTP gateways;
* `Service2.main` and `ServicoConsulta.main`, the two workers.

The four programs declare the same wire types, which are shared here.  Everything the
programs do not compute themselves is an explicit input of the embedding: the JSON
codec (`Json`), the result of the SQL query (`DB`), the outcome of each broker call
(`Env`, `publishOk`), the generated correlation token and the sequence of deliveries
(and, for `ServicoPedido`, of timer firings) the handler receives.  The effects of a
run are recorded in order: the broker operations issued, the log lines, the metric
updates, and what was written to the HTTP response.
-/

/-! ## Wire types (identical in the four `main.go` files) -/

structure ItemPedido where
  ItemID : Int
  Quantidade : Int
deriving DecidableEq, Repr

structure Pedido where
  ID : Int
  UF : String
  Itens : List ItemPedido
deriving DecidableEq, Repr

structure CDResposta where
  ItemID : Int
  CDSelecionado : String
  Status : String
deriving DecidableEq, Repr

structure RespostaPedido where
  PedidoID : Int
  Itens : List CDResposta
deriving DecidableEq, Repr

/-! ## The broker client, as the programs use it -/

/-- The fields of `amqp.Publishing` the programs set; a field left out is the empty string. -/
structure Publishing where
  ContentType : String
  CorrelationId : String
  ReplyTo : String
  Body : String
deriving DecidableEq, Repr

/-- The fields of `amqp.Delivery` the programs read. -/
structure Delivery where
  CorrelationId : String
  ReplyTo : String
  Body : String
deriving DecidableEq, Repr

/-- One call on the shared `*amqp.Channel`, with its arguments in the order of the Go
signature and, last, its outcome.  `QueueDeclare` yields the name of the queue, and
`Consume` the tag under which the consumer was registered; `none` is `err != nil`.
`Cancel` and `QueueDelete` are the calls of the client that release a consumer and a queue. -/
inductive BrokerOp where
  | QueueDeclare (name : String) (durable autoDelete exclusive noWait : Bool)
      (result : Option String)
  | Consume (queue consumer : String) (autoAck exclusive noLocal noWait : Bool)
      (result : Option String)
  | Publish (exchange key : String) (mandatory immediate : Bool) (msg : Publishing)
      (ok : Bool)
  | Cancel (consumer : String) (noWait : Bool)
  | QueueDelete (name : String)
deriving DecidableEq, Repr

/-- The message a consumer receives for a published message: the broker carries the
correlation token, the reply destination and the payload unchanged. -/
def deliver (p : Publishing) : Delivery :=
  { CorrelationId := p.CorrelationId, ReplyTo := p.ReplyTo, Body := p.Body }

/-! ## External collaborators -/

/-- The `encoding/json` calls of the programs.  A decoder yields the value it leaves in
its target and whether it returned an error. -/
structure Json where
  /-- Models `json.NewDecoder(r.Body).Decode(&pedido)`; `none` is `err != nil`. -/
  decodePedido : String → Option Pedido
  /-- Models `json.Marshal(pedido)`; `none` is `err != nil`. -/
  marshalPedido : Pedido → Option String
  /-- Models `json.Unmarshal(msg.Body, &pedido)`: the value left in `pedido`, and
  `err != nil`. -/
  unmarshalPedido : String → Pedido × Bool
  /-- Models `json.Marshal(resposta)`: the bytes returned (the error is never read). -/
  marshalResposta : RespostaPedido → String
  /-- Models `json.Unmarshal(msg.Body, &resposta)`: the value left in `resposta`, and
  `err != nil`. -/
  unmarshalResposta : String → RespostaPedido × Bool

/-- The database, seen through the one query of the workers:
`db.QueryRow(query, $1, $2, $3).Scan(&name, &cdUF, &qtd)`, with `none` for `err != nil`
(no row, or a failed query). -/
structure DB where
  queryRow : Int → Int → String → Option (String × String × Int)

/-! ## Workers -/

/-- What a worker has done so far: broker operations, log lines and metric updates
(metric name, label), each in the order issued. -/
structure WorkerState where
  ops : List BrokerOp
  logs : List String
  metrics : List (String × String)
deriving DecidableEq, Repr

/-- A worker that has just started consuming. -/
def WorkerState.init : WorkerState :=
  { ops := [], logs := [], metrics := [] }

namespace Service2

/-- Function `selecionarCDMaisProximo` of `service2/main.go`. -/
def selecionarCDMaisProximo (db : DB) (itemID : Int) (uf : String) (quantidade : Int) :
    String × String :=
  match db.queryRow itemID quantidade uf with
  | none => ("", "Indisponível")
  | some (name, _, _) => (name, "OK")

/-- The inner loop of `main`: one `append` per order line. -/
def montarItens (db : DB) (pedido : Pedido) (resposta : RespostaPedido) : RespostaPedido :=
  pedido.Itens.foldl
    (fun resposta item =>
      let r := selecionarCDMaisProximo db item.ItemID pedido.UF item.Quantidade
      { resposta with
        Itens := resposta.Itens ++
          [{ ItemID := item.ItemID, CDSelecionado := r.1, Status := r.2 }] })
    resposta

/-- The `resposta` the loop body of `main` has built when it reaches `json.Marshal`. -/
def resposta (js : Json) (db : DB) (msg : Delivery) : RespostaPedido :=
  let pedido := (js.unmarshalPedido msg.Body).1
  montarItens db pedido { PedidoID := pedido.ID, Itens := [] }

/-- One iteration of `for msg := range msgs` in `main`.  `publishOk n` tells whether the
`Publish` issued after `n` earlier broker operations succeeds. -/
def iteracao (js : Json) (db : DB) (publishOk : Nat → Bool) (st : WorkerState)
    (msg : Delivery) : WorkerState :=
  let responseBody := js.marshalResposta (resposta js db msg)
  let ok := publishOk st.ops.length
  let st1 : WorkerState :=
    { st with
      ops := st.ops ++
        [BrokerOp.Publish "" msg.ReplyTo false false
          { ContentType := "application/json", CorrelationId := msg.CorrelationId,
            ReplyTo := "", Body := responseBody } ok] }
  if ok then st1 else { st1 with logs := st1.logs ++ ["Erro ao enviar resposta: %v"] }

/-- The consume loop of `main`, run over the tasks delivered to it. -/
def main (js : Json) (db : DB) (publishOk : Nat → Bool) (msgs : List Delivery) :
    WorkerState :=
  msgs.foldl (iteracao js db publishOk) WorkerState.init

end Service2

namespace ServicoConsulta

/-- Function `selecionarCDMaisProximo` of `servico-consulta/main.go`. -/
def selecionarCDMaisProximo (db : DB) (itemID : Int) (uf : String) (quantidade : Int) :
    String × String :=
  match db.queryRow itemID quantidade uf with
  | none => ("", "Indisponível")
  | some (name, _, _) => (name, "OK")

/-- The inner loop of `main`: one `append` per order line. -/
def montarItens (db : DB) (pedido : Pedido) (resposta : RespostaPedido) : RespostaPedido :=
  pedido.Itens.foldl
    (fun resposta item =>
      let r := selecionarCDMaisProximo db item.ItemID pedido.UF item.Quantidade
      { resposta with
        Itens := resposta.Itens ++
          [{ ItemID := item.ItemID, CDSelecionado := r.1, Status := r.2 }] })
    resposta

/-- The `resposta` the loop body of `main` has built when it reaches `json.Marshal`. -/
def resposta (js : Json) (db : DB) (msg : Delivery) : RespostaPedido :=
  let pedido := (js.unmarshalPedido msg.Body).1
  montarItens db pedido { PedidoID := pedido.ID, Itens := [] }

/-- One iteration of `for msg := range msgs` in `main`, with its two metrics. -/
def iteracao (js : Json) (db : DB) (publishOk : Nat → Bool) (st : WorkerState)
    (msg : Delivery) : WorkerState :=
  let responseBody := js.marshalResposta (resposta js db msg)
  let ok := publishOk st.ops.length
  let st1 : WorkerState :=
    { st with
      ops := st.ops ++
        [BrokerOp.Publish "" msg.ReplyTo false false
          { ContentType := "application/json", CorrelationId := msg.CorrelationId,
            ReplyTo := "", Body := responseBody } ok] }
  let st2 : WorkerState :=
    if ok then
      { st1 with metrics := st1.metrics ++ [("pedidos_processados_total", "sucesso")] }
    else
      { st1 with
        logs := st1.logs ++ ["Erro ao enviar resposta: %v"]
        metrics := st1.metrics ++ [("pedidos_processados_total", "erro")] }
  { st2 with metrics := st2.metrics ++ [("tempo_processamento_pedido_seconds", "sucesso")] }

/-- The consume loop of `main`, run over the tasks delivered to it. -/
def main (js : Json) (db : DB) (publishOk : Nat → Bool) (msgs : List Delivery) :
    WorkerState :=
  msgs.foldl (iteracao js db publishOk) WorkerState.init

end ServicoConsulta

/-! ## Gateways -/

/-- What a handler wrote as the body of its HTTP response. -/
inductive Body where
  /-- Written by `http.Error(w, s, code)`. -/
  | text (s : String)
  /-- Written by `json.NewEncoder(w).Encode(r)`. -/
  | json (r : RespostaPedido)
deriving DecidableEq, Repr

/-- How a run of a handler ends. -/
inductive Result where
  /-- The handler wrote a response with this status code (200 when it wrote no header). -/
  | wrote (status : Nat) (body : Body)
  /-- The handler returned without writing anything to the response. -/
  | returned
  /-- The handler is blocked on its receive: what it was given to receive is used up and
  nothing it waits for has come. -/
  | waiting
deriving DecidableEq, Repr

/-- The outcome of each call a handler makes, for one run. -/
structure Env where
  /-- Whether `QueueDeclare("novo_pedido", ...)` succeeds (`Service1` only). -/
  declareWork : Bool
  /-- Result of `QueueDeclare("", ...)`: the name the server gives the reply queue. -/
  declareReply : Option String
  /-- Result of `Consume(replyQueue.Name, "", ...)`: the tag the consumer is registered
  under. -/
  consume : Option String
  /-- Value of `uuid.New().String()`. -/
  uuid : String
  /-- Whether `Publish("", "novo_pedido", ...)` succeeds. -/
  publish : Bool

/-- The effects of one run of a handler, in order, and how it ended. -/
structure Run where
  ops : List BrokerOp
  logs : List String
  metrics : List (String × String)
  result : Result
deriving DecidableEq, Repr

/-- What a `ServicoPedido` handler observes in its `select`: a delivery on the reply
channel, or the firing of the `time.After(5 * time.Second)` timer. -/
inductive Event where
  | delivery (msg : Delivery)
  | timeout
deriving DecidableEq, Repr

namespace Service1

/-- The loop `for msg := range msgs` of `handlePedido`, over the deliveries the reply
channel yields; `closed` tells whether the channel is closed after them.  Yields the log
lines and the result. -/
def esperar (js : Json) (correlationID : String) (closed : Bool) :
    List Delivery → List String × Result
  | [] => ([], if closed then Result.returned else Result.waiting)
  | msg :: rest =>
    let l := "Mensagem recebida, CorrelationId: %s, Resposta: %s"
    if msg.CorrelationId = correlationID then
      match js.unmarshalResposta msg.Body with
      | (_, true) =>
        ([l, "Erro ao decodificar resposta: %v"],
          Result.wrote 500 (Body.text "Erro ao decodificar resposta"))
      | (resposta, false) =>
        ([l, "Resposta enviada ao cliente: %+v"], Result.wrote 200 (Body.json resposta))
    else
      let r := esperar js correlationID closed rest
      (l :: r.1, r.2)

/-- Handler `handlePedido` of `service1/main.go`, for the request body `body`. -/
def handlePedido (js : Json) (env : Env) (closed : Bool) (msgs : List Delivery)
    (body : String) : Run :=
  match js.decodePedido body with
  | none =>
    { ops := [], logs := ["Erro ao decodificar o JSON da requisição: %v"], metrics := [],
      result := Result.wrote 400 (Body.text "JSON inválido") }
  | some pedido =>
    let logs1 := ["Pedido recebido: %+v"]
    let ops1 := [BrokerOp.QueueDeclare "novo_pedido" true false false false
      (if env.declareWork then some "novo_pedido" else none)]
    if env.declareWork = false then
      { ops := ops1, logs := logs1 ++ ["Erro ao declarar fila 'novo_pedido': %v"],
        metrics := [],
        result := Result.wrote 500 (Body.text "Erro ao declarar fila 'novo_pedido'") }
    else
    let logs2 := logs1 ++ ["Fila 'novo_pedido' declarada com sucesso"]
    let ops2 := ops1 ++ [BrokerOp.QueueDeclare "" false true true false env.declareReply]
    match env.declareReply with
    | none =>
      { ops := ops2, logs := logs2 ++ ["Erro ao criar fila de resposta: %v"], metrics := [],
        result := Result.wrote 500 (Body.text "Erro ao criar fila de resposta") }
    | some replyQueue =>
    let logs3 := logs2 ++ ["Fila de resposta temporária criada: %s"]
    let ops3 := ops2 ++ [BrokerOp.Consume replyQueue "" true false false false env.consume]
    match env.consume with
    | none =>
      { ops := ops3, logs := logs3 ++ ["Erro ao consumir fila de resposta: %v"],
        metrics := [],
        result := Result.wrote 500 (Body.text "Erro ao consumir fila de resposta") }
    | some _ =>
    let correlationID := env.uuid
    let logs4 := logs3 ++ ["CorrelationID gerado: %s"]
    match js.marshalPedido pedido with
    | none =>
      { ops := ops3, logs := logs4 ++ ["Erro ao serializar pedido para JSON: %v"],
        metrics := [],
        result := Result.wrote 500 (Body.text "Erro ao processar pedido") }
    | some corpo =>
    let ops4 := ops3 ++ [BrokerOp.Publish "" "novo_pedido" false false
      { ContentType := "application/json", CorrelationId := correlationID,
        ReplyTo := replyQueue, Body := corpo } env.publish]
    if env.publish = false then
      { ops := ops4, logs := logs4 ++ ["Erro ao enviar pedido para fila: %v"], metrics := [],
        result := Result.wrote 500 (Body.text "Erro ao enviar pedido para fila") }
    else
    let logs5 := logs4 ++ ["Pedido enviado para fila 'novo_pedido' com sucesso"]
    let r := esperar js correlationID closed msgs
    { ops := ops4, logs := logs5 ++ r.1, metrics := [], result := r.2 }

end Service1

namespace ServicoPedido

/-- The loop `for { select { ... } }` of `handlePedido`, over the events it observes, in
the order the `select` takes them.  Yields the metric updates and the result.  The timer
fires once in every run, so the events of a whole run hold a `timeout` unless a matching
delivery ends the run first. -/
def esperar (js : Json) (correlationID : String) :
    List Event → List (String × String) × Result
  | [] => ([], Result.waiting)
  | Event.delivery msg :: rest =>
    if msg.CorrelationId = correlationID then
      ([("pedido_total", "success"), ("pedido_latency_seconds", "success")],
        Result.wrote 200 (Body.json (js.unmarshalResposta msg.Body).1))
    else
      esperar js correlationID rest
  | Event.timeout :: _ =>
    ([("pedido_error_total", "timeout")],
      Result.wrote 504 (Body.text "Timeout esperando resposta do serviço"))

/-- Handler `handlePedido` of `servico-pedido/main.go`, for the request body `body`. -/
def handlePedido (js : Json) (env : Env) (events : List Event) (body : String) : Run :=
  match js.decodePedido body with
  | none =>
    { ops := [], logs := [], metrics := [("pedido_error_total", "invalid_json")],
      result := Result.wrote 400 (Body.text "JSON inválido") }
  | some pedido =>
    let metrics1 := [("pedido_total", "received")]
    let ops1 := [BrokerOp.QueueDeclare "" false true true false env.declareReply]
    match env.declareReply with
    | none =>
      { ops := ops1, logs := [],
        metrics := metrics1 ++ [("pedido_error_total", "reply_queue_error")],
        result := Result.wrote 500 (Body.text "Erro fila de resposta") }
    | some replyQueue =>
    let ops2 := ops1 ++ [BrokerOp.Consume replyQueue "" true false false false env.consume]
    match env.consume with
    | none =>
      { ops := ops2, logs := [],
        metrics := metrics1 ++ [("pedido_error_total", "consume_queue_error")],
        result := Result.wrote 500 (Body.text "Erro consumir fila resposta") }
    | some _ =>
    let correlationID := env.uuid
    let corpo := (js.marshalPedido pedido).getD ""
    let ops3 := ops2 ++ [BrokerOp.Publish "" "novo_pedido" false false
      { ContentType := "application/json", CorrelationId := correlationID,
        ReplyTo := replyQueue, Body := corpo } env.publish]
    if env.publish = false then
      { ops := ops3, logs := [],
        metrics := metrics1 ++ [("pedido_error_total", "publish_error")],
        result := Result.wrote 500 (Body.text "Erro ao enviar pedido") }
    else
    let r := esperar js correlationID events
    { ops := ops3, logs := [], metrics := metrics1 ++ r.1, result := r.2 }

end ServicoPedido

/-! ## The shared broker channel -/

/-- What the broker holds for one channel: the queues declared through it, each with its
auto-delete flag, and the consumers registered on it, each with its tag and its queue. -/
structure ChannelState where
  queues : List (String × Bool)
  consumers : List (String × String)
deriving DecidableEq, Repr

/-- The effect of one operation on the channel.  A failed call changes nothing.  A
successful `QueueDeclare` adds the queue unless it exists, a successful `Consume` adds a
consumer, `Cancel` removes the consumers with that tag and then every auto-delete queue
they leave without a consumer, `QueueDelete` removes a queue and its consumers, and
`Publish` touches neither queues nor consumers. -/
def ChannelState.step (s : ChannelState) : BrokerOp → ChannelState
  | BrokerOp.QueueDeclare _ _ autoDelete _ _ (some q) =>
    if s.queues.any (fun x => x.1 = q) then s
    else { s with queues := s.queues ++ [(q, autoDelete)] }
  | BrokerOp.Consume queue _ _ _ _ _ (some tag) =>
    { s with consumers := s.consumers ++ [(tag, queue)] }
  | BrokerOp.Cancel tag _ =>
    let gone := s.consumers.filter (fun c => c.1 = tag)
    let rest := s.consumers.filter (fun c => c.1 ≠ tag)
    { queues := s.queues.filter (fun q =>
        !(q.2 && gone.any (fun c => c.2 = q.1) && !rest.any (fun c => c.2 = q.1))),
      consumers := rest }
  | BrokerOp.QueueDelete name =>
    { queues := s.queues.filter (fun q => q.1 ≠ name),
      consumers := s.consumers.filter (fun c => c.2 ≠ name) }
  | _ => s

/-- The channel after a sequence of operations. -/
def ChannelState.after (s : ChannelState) (ops : List BrokerOp) : ChannelState :=
  ops.foldl ChannelState.step s

/-- An operation that releases a consumer or a queue. -/
def BrokerOp.releases : BrokerOp → Bool
  | BrokerOp.Cancel _ _ => true
  | BrokerOp.QueueDelete _ => true
  | _ => false

/-! ## Notions used in the statements -/

/-- The decision the worker loops record for one order line: the line's item, with the
center found and `OK`, or no center and `Indisponível`. -/
def decisao (db : DB) (uf : String) (item : ItemPedido) : CDResposta :=
  match db.queryRow item.ItemID item.Quantidade uf with
  | none => { ItemID := item.ItemID, CDSelecionado := "", Status := "Indisponível" }
  | some (name, _, _) => { ItemID := item.ItemID, CDSelecionado := name, Status := "OK" }

/-- The reply message a worker publishes for the task `msg` when it has built `r`. -/
def replyFor (js : Json) (msg : Delivery) (r : RespostaPedido) : Publishing :=
  { ContentType := "application/json", CorrelationId := msg.CorrelationId, ReplyTo := "",
    Body := js.marshalResposta r }

/-- The task message a gateway publishes for the payload `corpo`. -/
def taskFor (correlationID replyQueue corpo : String) : Publishing :=
  { ContentType := "application/json", CorrelationId := correlationID,
    ReplyTo := replyQueue, Body := corpo }

/-- An event that ends the wait of a handler holding `token`: a delivery carrying that
token, or the deadline. -/
def Event.decides (token : String) : Event → Bool
  | Event.delivery msg => decide (msg.CorrelationId = token)
  | Event.timeout => true

/-- The response to the event that ends the wait. -/
def respond (js : Json) : Option Event → Result
  | some (Event.delivery msg) => Result.wrote 200 (Body.json (js.unmarshalResposta msg.Body).1)
  | some Event.timeout => Result.wrote 504 (Body.text "Timeout esperando resposta do serviço")
  | none => Result.waiting

/-- The publish attempts among a sequence of broker operations. -/
def publishes (ops : List BrokerOp) : List BrokerOp :=
  ops.filter (fun op => match op with
    | BrokerOp.Publish _ _ _ _ _ _ => true
    | _ => false)

/-- The publish a worker issues for the task at position `p.1` of its input. -/
def attemptOf (js : Json) (db : DB) (publishOk : Nat → Bool) (p : Nat × Delivery) :
    BrokerOp :=
  BrokerOp.Publish "" p.2.ReplyTo false false
    (replyFor js p.2 (Service2.resposta js db p.2)) (publishOk p.1)

/-- The log lines a worker writes for the task at position `p.1` of its input. -/
def errorLogOf (publishOk : Nat → Bool) (p : Nat × Delivery) : List String :=
  if publishOk p.1 = false then ["Erro ao enviar resposta: %v"] else []

/-- The reply `r` answers the order `pedido` line by line: same order id, as many
decisions as lines, and the same item ids in the same positions. -/
def MatchesOrder (r : RespostaPedido) (pedido : Pedido) : Prop :=
  r.PedidoID = pedido.ID ∧ r.Itens.length = pedido.Itens.length ∧
    r.Itens.map (fun d => d.ItemID) = pedido.Itens.map (fun item => item.ItemID)

/-- Every publish in `ops` comes after a successful `Consume`, with the flags the
handlers use, on the queue the published message names as its reply destination. -/
def ListensBeforePublishing (ops : List BrokerOp) : Prop :=
  ∀ i exchange key mandatory immediate msg ok,
    ops.get? i = some (BrokerOp.Publish exchange key mandatory immediate msg ok) →
      ∃ j tag, j < i ∧
        ops.get? j = some (BrokerOp.Consume msg.ReplyTo "" true false false false (some tag))

/-! ## Concrete inputs -/

/-- The order of the examples: one line, two units of item 10, for `SP`. -/
def pedido1 : Pedido :=
  { ID := 1, UF := "SP", Itens := [{ ItemID := 10, Quantidade := 2 }] }

/-- The JSON text of `pedido1`. -/
def corpoPedido1 : String :=
  "\x7b\"id\":1,\"uf\":\"SP\",\"itens\":[\x7b\"item_id\":10,\"quantidade\":2\x7d]\x7d"

/-- A reply to `pedido1`. -/
def resposta1 : RespostaPedido :=
  { PedidoID := 1, Itens := [{ ItemID := 10, CDSelecionado := "CD-SP-1", Status := "OK" }] }

/-- The JSON text of `resposta1`. -/
def corpoResposta1 : String :=
  "\x7b\"pedido_id\":1,\"itens\":[\x7b\"item_id\":10,\"cd_selecionado\":\"CD-SP-1\",\"status\":\"OK\"\x7d]\x7d"

/-- A codec that knows `pedido1` and `resposta1`; any other text fails to decode and
leaves the zero value, as a text that is not JSON does. -/
def jsonExemplo : Json where
  decodePedido s := if s = corpoPedido1 then some pedido1 else none
  marshalPedido p := some (if p = pedido1 then corpoPedido1 else "pedido")
  unmarshalPedido s :=
    if s = corpoPedido1 then (pedido1, false) else ({ ID := 0, UF := "", Itens := [] }, true)
  marshalResposta r :=
    if r = resposta1 then corpoResposta1
    else if r = { PedidoID := 0, Itens := [] } then "\x7b\"pedido_id\":0,\"itens\":null\x7d"
    else "resposta"
  unmarshalResposta s :=
    if s = corpoResposta1 then (resposta1, false) else ({ PedidoID := 0, Itens := [] }, true)

/-- A database in which `CD-SP-1` holds five units of item 10 and nothing else. -/
def dbExemplo : DB where
  queryRow itemID quantidade _ :=
    if itemID = 10 ∧ quantidade ≤ 5 then some ("CD-SP-1", "SP", 5) else none

/-- A database in which no center holds anything. -/
def dbVazio : DB where
  queryRow _ _ _ := none

/-- A run in which every broker call succeeds. -/
def envExemplo : Env :=
  { declareWork := true, declareReply := some "amq.gen-1", consume := some "ctag-1",
    uuid := "token-1", publish := true }

/-- The task a worker receives for `pedido1` from a gateway run in `envExemplo`. -/
def tarefa1 : Delivery :=
  { CorrelationId := "token-1", ReplyTo := "amq.gen-1", Body := corpoPedido1 }

/-- A task whose body is not JSON. -/
def tarefaRuim : Delivery :=
  { CorrelationId := "token-2", ReplyTo := "amq.gen-2", Body := "not json" }

/-- The correlated reply to `tarefa1`, as delivered on the reply queue. -/
def entrega1 : Delivery :=
  { CorrelationId := "token-1", ReplyTo := "", Body := corpoResposta1 }

/-- A delivery carrying another token. -/
def entregaAlheia : Delivery :=
  { CorrelationId := "token-9", ReplyTo := "", Body := corpoResposta1 }

/-! ## Lemmas on the worker loops -/

theorem service2_decisao_eq (db : DB) (uf : String) (item : ItemPedido) :
    CDResposta.mk item.ItemID
      (Service2.selecionarCDMaisProximo db item.ItemID uf item.Quantidade).1
      (Service2.selecionarCDMaisProximo db item.ItemID uf item.Quantidade).2 =
      decisao db uf item := by
  unfold Service2.selecionarCDMaisProximo decisao
  cases db.queryRow item.ItemID item.Quantidade uf <;> rfl

theorem service2_foldl_itens (db : DB) (uf : String) (l : List ItemPedido)
    (r : RespostaPedido) :
    l.foldl
      (fun (resposta : RespostaPedido) (item : ItemPedido) =>
        { resposta with
          Itens := resposta.Itens ++
            [{ ItemID := item.ItemID,
               CDSelecionado :=
                (Service2.selecionarCDMaisProximo db item.ItemID uf item.Quantidade).1,
               Status :=
                (Service2.selecionarCDMaisProximo db item.ItemID uf item.Quantidade).2 }] })
      r = { r with Itens := r.Itens ++ l.map (decisao db uf) } := by
  induction l generalizing r with
  | nil => simp
  | cons item rest ih =>
    rw [List.foldl_cons, ih]
    simp [service2_decisao_eq]

theorem service2_montarItens_eq (db : DB) (pedido : Pedido) (r : RespostaPedido) :
    Service2.montarItens db pedido r =
      { r with Itens := r.Itens ++ pedido.Itens.map (decisao db pedido.UF) } := by
  unfold Service2.montarItens
  exact service2_foldl_itens db pedido.UF pedido.Itens r

theorem service2_resposta_eq (js : Json) (db : DB) (msg : Delivery) :
    Service2.resposta js db msg =
      { PedidoID := (js.unmarshalPedido msg.Body).1.ID,
        Itens := (js.unmarshalPedido msg.Body).1.Itens.map
          (decisao db (js.unmarshalPedido msg.Body).1.UF) } := by
  unfold Service2.resposta
  simp [service2_montarItens_eq]

theorem servicoConsulta_resposta_eq (js : Json) (db : DB) (msg : Delivery) :
    ServicoConsulta.resposta js db msg =
      { PedidoID := (js.unmarshalPedido msg.Body).1.ID,
        Itens := (js.unmarshalPedido msg.Body).1.Itens.map
          (decisao db (js.unmarshalPedido msg.Body).1.UF) } := by
  exact service2_resposta_eq js db msg

theorem service2_iteracao_ops (js : Json) (db : DB) (publishOk : Nat → Bool)
    (st : WorkerState) (msg : Delivery) :
    (Service2.iteracao js db publishOk st msg).ops =
      st.ops ++ [BrokerOp.Publish "" msg.ReplyTo false false
        (replyFor js msg (Service2.resposta js db msg)) (publishOk st.ops.length)] := by
  unfold Service2.iteracao replyFor
  cases publishOk st.ops.length <;> simp

theorem servicoConsulta_iteracao_ops (js : Json) (db : DB) (publishOk : Nat → Bool)
    (st : WorkerState) (msg : Delivery) :
    (ServicoConsulta.iteracao js db publishOk st msg).ops =
      st.ops ++ [BrokerOp.Publish "" msg.ReplyTo false false
        (replyFor js msg (ServicoConsulta.resposta js db msg)) (publishOk st.ops.length)] := by
  unfold ServicoConsulta.iteracao replyFor
  cases publishOk st.ops.length <;> simp

theorem decisao_ItemID (db : DB) (uf : String) (item : ItemPedido) :
    (decisao db uf item).ItemID = item.ItemID := by
  unfold decisao
  cases h : db.queryRow item.ItemID item.Quantidade uf <;> rfl

theorem map_decisao_ItemID (db : DB) (uf : String) (l : List ItemPedido) :
    (l.map (decisao db uf)).map (fun d => d.ItemID) = l.map (fun item => item.ItemID) := by
  induction l with
  | nil => rfl
  | cons item rest ih => simp [decisao_ItemID]

theorem service2_iteracao_logs (js : Json) (db : DB) (publishOk : Nat → Bool)
    (st : WorkerState) (msg : Delivery) :
    (Service2.iteracao js db publishOk st msg).logs =
      st.logs ++ (if publishOk st.ops.length = false then ["Erro ao enviar resposta: %v"]
        else []) := by
  unfold Service2.iteracao
  cases publishOk st.ops.length <;> simp

theorem servicoConsulta_iteracao_logs (js : Json) (db : DB) (publishOk : Nat → Bool)
    (st : WorkerState) (msg : Delivery) :
    (ServicoConsulta.iteracao js db publishOk st msg).logs =
      st.logs ++ (if publishOk st.ops.length = false then ["Erro ao enviar resposta: %v"]
        else []) := by
  unfold ServicoConsulta.iteracao
  cases publishOk st.ops.length <;> simp

theorem service2_foldl_ops (js : Json) (db : DB) (publishOk : Nat → Bool)
    (msgs : List Delivery) (st : WorkerState) :
    (msgs.foldl (Service2.iteracao js db publishOk) st).ops =
        st.ops ++ (msgs.enumFrom st.ops.length).map (attemptOf js db publishOk) ∧
      (msgs.foldl (Service2.iteracao js db publishOk) st).logs =
        st.logs ++ ((msgs.enumFrom st.ops.length).map (errorLogOf publishOk)).flatten := by
  induction msgs generalizing st with
  | nil => simp
  | cons msg rest ih =>
    rw [List.foldl_cons]
    have h := ih (Service2.iteracao js db publishOk st msg)
    rw [service2_iteracao_ops, service2_iteracao_logs] at h
    simp only [List.length_append, List.length_singleton] at h
    simp [h, List.enumFrom_cons, attemptOf, errorLogOf]

theorem servicoConsulta_foldl_ops (js : Json) (db : DB) (publishOk : Nat → Bool)
    (msgs : List Delivery) (st : WorkerState) :
    (msgs.foldl (ServicoConsulta.iteracao js db publishOk) st).ops =
        st.ops ++ (msgs.enumFrom st.ops.length).map (attemptOf js db publishOk) ∧
      (msgs.foldl (ServicoConsulta.iteracao js db publishOk) st).logs =
        st.logs ++ ((msgs.enumFrom st.ops.length).map (errorLogOf publishOk)).flatten := by
  induction msgs generalizing st with
  | nil => simp
  | cons msg rest ih =>
    rw [List.foldl_cons]
    have h := ih (ServicoConsulta.iteracao js db publishOk st msg)
    rw [servicoConsulta_iteracao_ops, servicoConsulta_iteracao_logs] at h
    simp only [List.length_append, List.length_singleton] at h
    have e : ServicoConsulta.resposta js db msg = Service2.resposta js db msg := rfl
    simp [h, e, List.enumFrom_cons, attemptOf, errorLogOf]

/-! ## Workers: the reply follows the order -/

/-- C1: for every task whose body decodes to the order `pedido`, and whatever the
database answers, the loop body of both workers issues one publish whose message is the
encoding of a `resposta` with the order's id and one decision per order line, the i-th
decision carrying the item id of the i-th line. -/
theorem worker_reply_follows_order_lines (js : Json) (db : DB) (publishOk : Nat → Bool)
    (st : WorkerState) (msg : Delivery) (pedido : Pedido)
    (h : js.unmarshalPedido msg.Body = (pedido, false)) :
    ((Service2.iteracao js db publishOk st msg).ops =
        st.ops ++ [BrokerOp.Publish "" msg.ReplyTo false false
          (replyFor js msg (Service2.resposta js db msg)) (publishOk st.ops.length)] ∧
      MatchesOrder (Service2.resposta js db msg) pedido) ∧
    ((ServicoConsulta.iteracao js db publishOk st msg).ops =
        st.ops ++ [BrokerOp.Publish "" msg.ReplyTo false false
          (replyFor js msg (ServicoConsulta.resposta js db msg)) (publishOk st.ops.length)] ∧
      MatchesOrder (ServicoConsulta.resposta js db msg) pedido) := by
  have key : MatchesOrder (Service2.resposta js db msg) pedido := by
    rw [service2_resposta_eq, h]
    exact ⟨rfl, by simp, map_decisao_ItemID db pedido.UF pedido.Itens⟩
  exact ⟨⟨service2_iteracao_ops js db publishOk st msg, key⟩,
    ⟨servicoConsulta_iteracao_ops js db publishOk st msg, key⟩⟩

/-- Instance of C1 at `tarefa1`, the task carrying `pedido1`. -/
theorem worker_reply_follows_order_lines_witness :
    jsonExemplo.unmarshalPedido tarefa1.Body = (pedido1, false) ∧
    (((Service2.iteracao jsonExemplo dbExemplo (fun _ => true) WorkerState.init tarefa1).ops =
        WorkerState.init.ops ++ [BrokerOp.Publish "" tarefa1.ReplyTo false false
          (replyFor jsonExemplo tarefa1 (Service2.resposta jsonExemplo dbExemplo tarefa1))
          ((fun _ => true) WorkerState.init.ops.length)] ∧
      MatchesOrder (Service2.resposta jsonExemplo dbExemplo tarefa1) pedido1) ∧
    ((ServicoConsulta.iteracao jsonExemplo dbExemplo (fun _ => true) WorkerState.init
          tarefa1).ops =
        WorkerState.init.ops ++ [BrokerOp.Publish "" tarefa1.ReplyTo false false
          (replyFor jsonExemplo tarefa1 (ServicoConsulta.resposta jsonExemplo dbExemplo tarefa1))
          ((fun _ => true) WorkerState.init.ops.length)] ∧
      MatchesOrder (ServicoConsulta.resposta jsonExemplo dbExemplo tarefa1) pedido1)) :=
  ⟨by decide, worker_reply_follows_order_lines jsonExemplo dbExemplo (fun _ => true)
    WorkerState.init tarefa1 pedido1 (by decide)⟩

/-- C2, as stated, fails: for item 10 of `pedido1` the query finds `CD-SP-1`, and the
status both workers record is `OK`, not `Fulfilled`; when the query finds nothing the
status is `Indisponível`, not `Unavailable`. -/
theorem status_is_not_fulfilled :
    dbExemplo.queryRow 10 2 "SP" = some ("CD-SP-1", "SP", 5) ∧
    Service2.selecionarCDMaisProximo dbExemplo 10 "SP" 2 = ("CD-SP-1", "OK") ∧
    ServicoConsulta.selecionarCDMaisProximo dbExemplo 10 "SP" 2 = ("CD-SP-1", "OK") ∧
    (Service2.resposta jsonExemplo dbExemplo tarefa1).Itens =
      [{ ItemID := 10, CDSelecionado := "CD-SP-1", Status := "OK" }] ∧
    ¬ (Service2.selecionarCDMaisProximo dbExemplo 10 "SP" 2).2 = "Fulfilled" ∧
    ¬ (ServicoConsulta.selecionarCDMaisProximo dbExemplo 10 "SP" 2).2 = "Fulfilled" ∧
    dbVazio.queryRow 10 2 "SP" = none ∧
    Service2.selecionarCDMaisProximo dbVazio 10 "SP" 2 = ("", "Indisponível") ∧
    ServicoConsulta.selecionarCDMaisProximo dbVazio 10 "SP" 2 = ("", "Indisponível") ∧
    ¬ (Service2.selecionarCDMaisProximo dbVazio 10 "SP" 2).2 = "Unavailable" ∧
    ¬ (ServicoConsulta.selecionarCDMaisProximo dbVazio 10 "SP" 2).2 = "Unavailable" := by
  decide

/-- C2, amended: for the order line at any position `i` of the order a worker has
decoded, the decision at position `i` of the reply has status `OK` and the name of the
center as selected center when the query yields a row, and status `Indisponível` and the
empty string as selected center when it yields none (no eligible center, or a failed
query); in both workers. -/
theorem worker_status_ok_or_indisponivel (js : Json) (db : DB) (msg : Delivery) (i : Nat)
    (item : ItemPedido) (hi : (js.unmarshalPedido msg.Body).1.Itens.get? i = some item) :
    (∀ name cdUF qtd,
      db.queryRow item.ItemID item.Quantidade (js.unmarshalPedido msg.Body).1.UF =
          some (name, cdUF, qtd) →
        (Service2.resposta js db msg).Itens.get? i =
            some { ItemID := item.ItemID, CDSelecionado := name, Status := "OK" } ∧
          (ServicoConsulta.resposta js db msg).Itens.get? i =
            some { ItemID := item.ItemID, CDSelecionado := name, Status := "OK" }) ∧
    (db.queryRow item.ItemID item.Quantidade (js.unmarshalPedido msg.Body).1.UF = none →
        (Service2.resposta js db msg).Itens.get? i =
            some { ItemID := item.ItemID, CDSelecionado := "", Status := "Indisponível" } ∧
          (ServicoConsulta.resposta js db msg).Itens.get? i =
            some { ItemID := item.ItemID, CDSelecionado := "", Status := "Indisponível" }) := by
  have key : (Service2.resposta js db msg).Itens.get? i =
      some (decisao db (js.unmarshalPedido msg.Body).1.UF item) := by
    rw [service2_resposta_eq]
    simp only [List.get?_eq_getElem?, List.getElem?_map] at hi ⊢
    rw [hi]
    rfl
  have key2 : (ServicoConsulta.resposta js db msg).Itens.get? i =
      some (decisao db (js.unmarshalPedido msg.Body).1.UF item) := key
  refine ⟨?_, ?_⟩
  · intro name cdUF qtd hq
    rw [key, key2]
    simp [decisao, hq]
  · intro hq
    rw [key, key2]
    simp [decisao, hq]

/-- Instance of the amended C2 at the one line of `pedido1`, for which `CD-SP-1` is found. -/
theorem worker_status_ok_or_indisponivel_witness :
    (jsonExemplo.unmarshalPedido tarefa1.Body).1.Itens.get? 0 =
      some { ItemID := 10, Quantidade := 2 } ∧
    dbExemplo.queryRow 10 2 "SP" = some ("CD-SP-1", "SP", 5) ∧
    (Service2.resposta jsonExemplo dbExemplo tarefa1).Itens.get? 0 =
      some { ItemID := 10, CDSelecionado := "CD-SP-1", Status := "OK" } ∧
    (ServicoConsulta.resposta jsonExemplo dbExemplo tarefa1).Itens.get? 0 =
      some { ItemID := 10, CDSelecionado := "CD-SP-1", Status := "OK" } :=
  ⟨by decide, by decide,
    (worker_status_ok_or_indisponivel jsonExemplo dbExemplo tarefa1 0
      { ItemID := 10, Quantidade := 2 } (by decide)).1 "CD-SP-1" "SP" 5 (by decide)⟩

/-! ## Workers: decode failures and publish failures -/

/-- C8, as stated, fails: the body of `tarefaRuim` does not decode, and both workers
still publish a reply to its reply destination, carrying its token. -/
theorem undecodable_task_is_answered :
    (jsonExemplo.unmarshalPedido tarefaRuim.Body).2 = true ∧
    (Service2.main jsonExemplo dbExemplo (fun _ => true) [tarefaRuim]).ops =
      [BrokerOp.Publish "" "amq.gen-2" false false
        { ContentType := "application/json", CorrelationId := "token-2", ReplyTo := "",
          Body := "\x7b\"pedido_id\":0,\"itens\":null\x7d" } true] ∧
    (ServicoConsulta.main jsonExemplo dbExemplo (fun _ => true) [tarefaRuim]).ops =
      [BrokerOp.Publish "" "amq.gen-2" false false
        { ContentType := "application/json", CorrelationId := "token-2", ReplyTo := "",
          Body := "\x7b\"pedido_id\":0,\"itens\":null\x7d" } true] ∧
    ¬ (Service2.main jsonExemplo dbExemplo (fun _ => true) [tarefaRuim]).ops = [] ∧
    ¬ (ServicoConsulta.main jsonExemplo dbExemplo (fun _ => true) [tarefaRuim]).ops = [] := by
  decide

/-- C8, amended: for every task message whose body fails to decode as an order, both
workers ignore the decode error and publish exactly one reply to the task's reply
destination, carrying the task's correlation token; its payload is built from the
order value the decoder left, and has order id 0 and no decision when that is the zero
value. -/
theorem undecodable_task_gets_one_reply (js : Json) (db : DB) (publishOk : Nat → Bool)
    (st : WorkerState) (msg : Delivery) (h : (js.unmarshalPedido msg.Body).2 = true) :
    (Service2.iteracao js db publishOk st msg).ops =
      st.ops ++ [BrokerOp.Publish "" msg.ReplyTo false false
        { ContentType := "application/json", CorrelationId := msg.CorrelationId,
          ReplyTo := "", Body := js.marshalResposta (Service2.resposta js db msg) }
        (publishOk st.ops.length)] ∧
    (ServicoConsulta.iteracao js db publishOk st msg).ops =
      st.ops ++ [BrokerOp.Publish "" msg.ReplyTo false false
        { ContentType := "application/json", CorrelationId := msg.CorrelationId,
          ReplyTo := "", Body := js.marshalResposta (ServicoConsulta.resposta js db msg) }
        (publishOk st.ops.length)] ∧
    Service2.resposta js db msg =
      { PedidoID := (js.unmarshalPedido msg.Body).1.ID,
        Itens := (js.unmarshalPedido msg.Body).1.Itens.map
          (decisao db (js.unmarshalPedido msg.Body).1.UF) } ∧
    ServicoConsulta.resposta js db msg = Service2.resposta js db msg ∧
    ((js.unmarshalPedido msg.Body).1 = { ID := 0, UF := "", Itens := [] } →
      Service2.resposta js db msg = { PedidoID := 0, Itens := [] }) := by
  have _ := h
  refine ⟨service2_iteracao_ops js db publishOk st msg,
    servicoConsulta_iteracao_ops js db publishOk st msg,
    service2_resposta_eq js db msg, rfl, ?_⟩
  intro hz
  rw [service2_resposta_eq, hz]
  rfl

/-- Instance of the amended C8 at `tarefaRuim`, whose body is not JSON. -/
theorem undecodable_task_gets_one_reply_witness :
    (jsonExemplo.unmarshalPedido tarefaRuim.Body).2 = true ∧
    (Service2.iteracao jsonExemplo dbExemplo (fun _ => false) WorkerState.init
        tarefaRuim).ops =
      WorkerState.init.ops ++ [BrokerOp.Publish "" tarefaRuim.ReplyTo false false
        { ContentType := "application/json", CorrelationId := tarefaRuim.CorrelationId,
          ReplyTo := "",
          Body := jsonExemplo.marshalResposta
            (Service2.resposta jsonExemplo dbExemplo tarefaRuim) }
        ((fun _ => false) WorkerState.init.ops.length)] :=
  ⟨by decide, (undecodable_task_gets_one_reply jsonExemplo dbExemplo (fun _ => false)
    WorkerState.init tarefaRuim (by decide)).1⟩

/-- C10, as stated, fails: when the one publish issued for `tarefa1` fails, both
workers have made a single attempt, not two or more, when the loop is through. -/
theorem failed_publish_is_not_retried :
    publishes (Service2.main jsonExemplo dbExemplo (fun _ => false) [tarefa1]).ops =
      [BrokerOp.Publish "" "amq.gen-1" false false
        { ContentType := "application/json", CorrelationId := "token-1", ReplyTo := "",
          Body := corpoResposta1 } false] ∧
    publishes (ServicoConsulta.main jsonExemplo dbExemplo (fun _ => false) [tarefa1]).ops =
      [BrokerOp.Publish "" "amq.gen-1" false false
        { ContentType := "application/json", CorrelationId := "token-1", ReplyTo := "",
          Body := corpoResposta1 } false] ∧
    ¬ 2 ≤ (publishes
      (Service2.main jsonExemplo dbExemplo (fun _ => false) [tarefa1]).ops).length ∧
    ¬ 2 ≤ (publishes
      (ServicoConsulta.main jsonExemplo dbExemplo (fun _ => false) [tarefa1]).ops).length := by
  decide

/-- C10, amended: both workers issue exactly one publish per task, in the order of the
tasks, whatever the outcome of each publish; a failed publish is followed by one error
log line and by no further attempt, and the loop moves on to the next task. -/
theorem worker_publishes_once_per_task (js : Json) (db : DB) (publishOk : Nat → Bool)
    (msgs : List Delivery) :
    ((Service2.main js db publishOk msgs).ops = msgs.enum.map (attemptOf js db publishOk) ∧
      (Service2.main js db publishOk msgs).ops.length = msgs.length ∧
      (Service2.main js db publishOk msgs).logs =
        (msgs.enum.map (errorLogOf publishOk)).flatten) ∧
    ((ServicoConsulta.main js db publishOk msgs).ops =
        msgs.enum.map (attemptOf js db publishOk) ∧
      (ServicoConsulta.main js db publishOk msgs).ops.length = msgs.length ∧
      (ServicoConsulta.main js db publishOk msgs).logs =
        (msgs.enum.map (errorLogOf publishOk)).flatten) := by
  have h1 := service2_foldl_ops js db publishOk msgs WorkerState.init
  have h2 := servicoConsulta_foldl_ops js db publishOk msgs WorkerState.init
  simp only [WorkerState.init, List.nil_append, List.length_nil] at h1 h2
  unfold Service2.main ServicoConsulta.main List.enum
  simp only [WorkerState.init]
  refine ⟨⟨h1.1, ?_, h1.2⟩, ⟨h2.1, ?_, h2.2⟩⟩
  · rw [h1.1]; simp
  · rw [h2.1]; simp

/-! ## Lemmas on the gateways -/

theorem service1_handlePedido_ops (js : Json) (env : Env) (closed : Bool)
    (msgs : List Delivery) (body : String) :
    (Service1.handlePedido js env closed msgs body).ops = [] ∨
    (Service1.handlePedido js env closed msgs body).ops =
      [BrokerOp.QueueDeclare "novo_pedido" true false false false none] ∨
    (Service1.handlePedido js env closed msgs body).ops =
      [BrokerOp.QueueDeclare "novo_pedido" true false false false (some "novo_pedido"),
        BrokerOp.QueueDeclare "" false true true false none] ∨
    (∃ q, (Service1.handlePedido js env closed msgs body).ops =
      [BrokerOp.QueueDeclare "novo_pedido" true false false false (some "novo_pedido"),
        BrokerOp.QueueDeclare "" false true true false (some q),
        BrokerOp.Consume q "" true false false false none]) ∨
    (∃ q tag, (Service1.handlePedido js env closed msgs body).ops =
      [BrokerOp.QueueDeclare "novo_pedido" true false false false (some "novo_pedido"),
        BrokerOp.QueueDeclare "" false true true false (some q),
        BrokerOp.Consume q "" true false false false (some tag)]) ∨
    (∃ q tag corpo, (Service1.handlePedido js env closed msgs body).ops =
      [BrokerOp.QueueDeclare "novo_pedido" true false false false (some "novo_pedido"),
        BrokerOp.QueueDeclare "" false true true false (some q),
        BrokerOp.Consume q "" true false false false (some tag),
        BrokerOp.Publish "" "novo_pedido" false false (taskFor env.uuid q corpo)
          env.publish]) := by
  unfold Service1.handlePedido
  cases hd : js.decodePedido body with
  | none => simp
  | some pedido =>
    cases hw : env.declareWork with
    | false => simp
    | true =>
      cases hq : env.declareReply with
      | none => simp
      | some q =>
        cases hc : env.consume with
        | none => simp
        | some tag =>
          cases hm : js.marshalPedido pedido with
          | none => simp [hm]
          | some corpo =>
            cases hp : env.publish <;> simp [hm, taskFor]

theorem servicoPedido_handlePedido_ops (js : Json) (env : Env) (events : List Event)
    (body : String) :
    (ServicoPedido.handlePedido js env events body).ops = [] ∨
    (ServicoPedido.handlePedido js env events body).ops =
      [BrokerOp.QueueDeclare "" false true true false none] ∨
    (∃ q, (ServicoPedido.handlePedido js env events body).ops =
      [BrokerOp.QueueDeclare "" false true true false (some q),
        BrokerOp.Consume q "" true false false false none]) ∨
    (∃ q tag corpo, (ServicoPedido.handlePedido js env events body).ops =
      [BrokerOp.QueueDeclare "" false true true false (some q),
        BrokerOp.Consume q "" true false false false (some tag),
        BrokerOp.Publish "" "novo_pedido" false false (taskFor env.uuid q corpo)
          env.publish]) := by
  unfold ServicoPedido.handlePedido
  cases hd : js.decodePedido body with
  | none => simp
  | some pedido =>
    cases hq : env.declareReply with
    | none => simp
    | some q =>
      cases hc : env.consume with
      | none => simp
      | some tag =>
        cases hp : env.publish <;> simp [taskFor]

theorem service1_handlePedido_published (js : Json) (env : Env) (closed : Bool)
    (msgs : List Delivery) (body : String) (pedido : Pedido) (q tag corpo : String)
    (hd : js.decodePedido body = some pedido) (hw : env.declareWork = true)
    (hq : env.declareReply = some q) (hc : env.consume = some tag)
    (hm : js.marshalPedido pedido = some corpo) :
    (Service1.handlePedido js env closed msgs body).ops =
      [BrokerOp.QueueDeclare "novo_pedido" true false false false (some "novo_pedido"),
        BrokerOp.QueueDeclare "" false true true false (some q),
        BrokerOp.Consume q "" true false false false (some tag),
        BrokerOp.Publish "" "novo_pedido" false false (taskFor env.uuid q corpo)
          env.publish] ∧
    (env.publish = true →
      (Service1.handlePedido js env closed msgs body).result =
        (Service1.esperar js env.uuid closed msgs).2) := by
  unfold Service1.handlePedido
  cases hp : env.publish <;> simp [hd, hw, hq, hc, hm, hp, taskFor]

theorem servicoPedido_handlePedido_published (js : Json) (env : Env) (events : List Event)
    (body : String) (pedido : Pedido) (q tag : String)
    (hd : js.decodePedido body = some pedido)
    (hq : env.declareReply = some q) (hc : env.consume = some tag) :
    (ServicoPedido.handlePedido js env events body).ops =
      [BrokerOp.QueueDeclare "" false true true false (some q),
        BrokerOp.Consume q "" true false false false (some tag),
        BrokerOp.Publish "" "novo_pedido" false false
          (taskFor env.uuid q ((js.marshalPedido pedido).getD "")) env.publish] ∧
    (env.publish = true →
      (ServicoPedido.handlePedido js env events body).result =
        (ServicoPedido.esperar js env.uuid events).2) := by
  unfold ServicoPedido.handlePedido
  cases hp : env.publish <;> simp [hd, hq, hc, hp, taskFor]

theorem servicoPedido_esperar_eq (js : Json) (token : String) (events : List Event) :
    (ServicoPedido.esperar js token events).2 =
      respond js (events.find? (Event.decides token)) := by
  induction events with
  | nil => rfl
  | cons e rest ih =>
    cases e with
    | delivery msg =>
      by_cases h : msg.CorrelationId = token
      · simp [ServicoPedido.esperar, Event.decides, respond, h]
      · simp [ServicoPedido.esperar, Event.decides, h, ih]
    | timeout => simp [ServicoPedido.esperar, Event.decides, respond]

theorem find_decides_append (token : String) (pre rest : List Event)
    (h : ∀ e ∈ pre, Event.decides token e = false) :
    (pre ++ rest).find? (Event.decides token) = rest.find? (Event.decides token) := by
  induction pre with
  | nil => rfl
  | cons e pre ih =>
    have he : Event.decides token e = false := h e (List.mem_cons_self e pre)
    have hrest : ∀ x ∈ pre, Event.decides token x = false :=
      fun x hx => h x (List.mem_cons_of_mem e hx)
    simp [List.find?_cons, he, ih hrest]

theorem service1_esperar_never_504 (js : Json) (token : String) (closed : Bool)
    (msgs : List Delivery) (b : Body) :
    (Service1.esperar js token closed msgs).2 ≠ Result.wrote 504 b := by
  induction msgs with
  | nil => cases closed <;> simp [Service1.esperar]
  | cons msg rest ih =>
    unfold Service1.esperar
    by_cases h : msg.CorrelationId = token
    · cases hu : js.unmarshalResposta msg.Body with
      | mk r err => cases err <;> simp [h, hu]
    · simpa [h] using ih

/-! ## Gateways: malformed input -/

/-- C3: in both gateway handlers, when the request body fails to decode as an order the
handler answers 400 and issues no broker operation at all. -/
theorem malformed_body_no_broker_call (js : Json) (env : Env) (closed : Bool)
    (msgs : List Delivery) (events : List Event) (body : String)
    (h : js.decodePedido body = none) :
    ((Service1.handlePedido js env closed msgs body).result =
        Result.wrote 400 (Body.text "JSON inválido") ∧
      (Service1.handlePedido js env closed msgs body).ops = []) ∧
    ((ServicoPedido.handlePedido js env events body).result =
        Result.wrote 400 (Body.text "JSON inválido") ∧
      (ServicoPedido.handlePedido js env events body).ops = []) := by
  unfold Service1.handlePedido ServicoPedido.handlePedido
  simp [h]

/-- Instance of C3 at a request body that is not JSON. -/
theorem malformed_body_no_broker_call_witness :
    jsonExemplo.decodePedido "not json" = none ∧
    (((Service1.handlePedido jsonExemplo envExemplo false [entrega1] "not json").result =
        Result.wrote 400 (Body.text "JSON inválido") ∧
      (Service1.handlePedido jsonExemplo envExemplo false [entrega1] "not json").ops = []) ∧
    ((ServicoPedido.handlePedido jsonExemplo envExemplo [Event.timeout] "not json").result =
        Result.wrote 400 (Body.text "JSON inválido") ∧
      (ServicoPedido.handlePedido jsonExemplo envExemplo [Event.timeout] "not json").ops =
        [])) :=
  ⟨by decide, malformed_body_no_broker_call jsonExemplo envExemplo false [entrega1]
    [Event.timeout] "not json" (by decide)⟩

/-! ## Gateways: waiting for the reply -/

/-- C4: in the handler of `servico-pedido`, once the task is published, the response is
the one to the earliest event that is a delivery carrying the generated token or the
deadline: 200 with the decoded body of that delivery, or 504.  Deliveries carrying
another token that come before it are discarded and leave the response unchanged, and a
run in which the deadline fires ends with a response. -/
theorem servico_pedido_first_deciding_event (js : Json) (env : Env) (events : List Event)
    (body : String) (pedido : Pedido) (q tag : String)
    (hd : js.decodePedido body = some pedido) (hq : env.declareReply = some q)
    (hc : env.consume = some tag) (hp : env.publish = true) :
    (ServicoPedido.handlePedido js env events body).result =
      respond js (events.find? (Event.decides env.uuid)) ∧
    (∀ pre rest : List Event, (∀ e ∈ pre, Event.decides env.uuid e = false) →
      (ServicoPedido.handlePedido js env (pre ++ rest) body).result =
        (ServicoPedido.handlePedido js env rest body).result) ∧
    (∀ pre rest : List Event, ∀ msg : Delivery,
      (∀ e ∈ pre, Event.decides env.uuid e = false) → msg.CorrelationId = env.uuid →
      (ServicoPedido.handlePedido js env (pre ++ Event.delivery msg :: rest) body).result =
        Result.wrote 200 (Body.json (js.unmarshalResposta msg.Body).1)) ∧
    (∀ pre rest : List Event, (∀ e ∈ pre, Event.decides env.uuid e = false) →
      (ServicoPedido.handlePedido js env (pre ++ Event.timeout :: rest) body).result =
        Result.wrote 504 (Body.text "Timeout esperando resposta do serviço")) ∧
    (Event.timeout ∈ events →
      ∃ status b, (ServicoPedido.handlePedido js env events body).result =
        Result.wrote status b) := by
  have run : ∀ evs : List Event, (ServicoPedido.handlePedido js env evs body).result =
      respond js (evs.find? (Event.decides env.uuid)) := by
    intro evs
    rw [(servicoPedido_handlePedido_published js env evs body pedido q tag hd hq hc).2 hp]
    exact servicoPedido_esperar_eq js env.uuid evs
  refine ⟨run events, ?_, ?_, ?_, ?_⟩
  · intro pre rest hpre
    rw [run, run, find_decides_append env.uuid pre rest hpre]
  · intro pre rest msg hpre hmsg
    rw [run, find_decides_append env.uuid pre _ hpre]
    simp [List.find?_cons, Event.decides, hmsg, respond]
  · intro pre rest hpre
    rw [run, find_decides_append env.uuid pre _ hpre]
    simp [List.find?_cons, Event.decides, respond]
  · intro hmem
    rw [run]
    cases hf : events.find? (Event.decides env.uuid) with
    | none =>
      have := List.find?_eq_none.mp hf Event.timeout hmem
      simp [Event.decides] at this
    | some e =>
      cases e with
      | delivery msg => exact ⟨200, _, rfl⟩
      | timeout => exact ⟨504, _, rfl⟩

/-- Instance of C4: a delivery with another token, then the correlated reply, then the deadline. -/
theorem servico_pedido_first_deciding_event_witness :
    jsonExemplo.decodePedido corpoPedido1 = some pedido1 ∧
    envExemplo.declareReply = some "amq.gen-1" ∧ envExemplo.consume = some "ctag-1" ∧
    envExemplo.publish = true ∧
    (ServicoPedido.handlePedido jsonExemplo envExemplo
        [Event.delivery entregaAlheia, Event.delivery entrega1, Event.timeout]
        corpoPedido1).result =
      respond jsonExemplo
        ([Event.delivery entregaAlheia, Event.delivery entrega1, Event.timeout].find?
          (Event.decides envExemplo.uuid)) ∧
    respond jsonExemplo
        ([Event.delivery entregaAlheia, Event.delivery entrega1, Event.timeout].find?
          (Event.decides envExemplo.uuid)) = Result.wrote 200 (Body.json resposta1) :=
  ⟨by decide, by decide, by decide, by decide,
    (servico_pedido_first_deciding_event jsonExemplo envExemplo
      [Event.delivery entregaAlheia, Event.delivery entrega1, Event.timeout]
      corpoPedido1 pedido1 "amq.gen-1" "ctag-1" (by decide) (by decide) (by decide)
      (by decide)).1, by decide⟩

/-- C5 fails on the code: the handler of `service1` has no deadline.  With the task
published and no delivery on its reply channel it stays blocked on the receive; if the
channel is closed it returns having written nothing; and in no run at all does it
answer 504. -/
theorem service1_has_no_deadline :
    (Service1.handlePedido jsonExemplo envExemplo false [] corpoPedido1).result =
      Result.waiting ∧
    (Service1.handlePedido jsonExemplo envExemplo false [entregaAlheia] corpoPedido1).result =
      Result.waiting ∧
    (Service1.handlePedido jsonExemplo envExemplo true [] corpoPedido1).result =
      Result.returned ∧
    (ServicoPedido.handlePedido jsonExemplo envExemplo [Event.timeout] corpoPedido1).result =
      Result.wrote 504 (Body.text "Timeout esperando resposta do serviço") ∧
    ∀ (js : Json) (env : Env) (closed : Bool) (msgs : List Delivery) (body : String)
      (b : Body), (Service1.handlePedido js env closed msgs body).result ≠
        Result.wrote 504 b := by
  refine ⟨by decide, by decide, by decide, by decide, ?_⟩
  intro js env closed msgs body b
  unfold Service1.handlePedido
  cases hd : js.decodePedido body with
  | none => simp
  | some pedido =>
    cases hw : env.declareWork with
    | false => simp
    | true =>
      cases hq : env.declareReply with
      | none => simp
      | some q =>
        cases hc : env.consume with
        | none => simp
        | some tag =>
          cases hm : js.marshalPedido pedido with
          | none => simp [hm]
          | some corpo =>
            cases hp : env.publish with
            | false => simp [hm]
            | true =>
              simp only [hm]
              simpa using service1_esperar_never_504 js env.uuid closed msgs b

/-! ## Correlation and ordering -/

theorem service1_esperar_skip (js : Json) (token : String) (closed : Bool)
    (pre rest : List Delivery) (h : ∀ m ∈ pre, m.CorrelationId ≠ token) :
    (Service1.esperar js token closed (pre ++ rest)).2 =
      (Service1.esperar js token closed rest).2 := by
  induction pre with
  | nil => rfl
  | cons m pre ih =>
    have hm : m.CorrelationId ≠ token := h m (List.mem_cons_self m pre)
    have hrest : ∀ x ∈ pre, x.CorrelationId ≠ token :=
      fun x hx => h x (List.mem_cons_of_mem m hx)
    simp [Service1.esperar, hm, ih hrest]

/-- C6: for every order, token and reply queue of a gateway run, the one task the
gateway publishes carries the token as `CorrelationId` and the queue as `ReplyTo`; the
one reply a worker publishes for that task is addressed to that queue and carries that
token; and the handler that published the task, receiving that reply after any
deliveries carrying other tokens, finds the token equal to its own and answers from the
reply: `servico-pedido` with 200 and the decoded body, `service1` with 200 and the
decoded body, or 500 when the body does not decode. -/
theorem correlation_round_trip (js : Json) (env : Env) (closed : Bool)
    (msgs : List Delivery) (events : List Event) (body : String) (pedido : Pedido)
    (q tag corpo : String) (db : DB) (publishOk : Nat → Bool) (st : WorkerState)
    (hd : js.decodePedido body = some pedido) (hw : env.declareWork = true)
    (hq : env.declareReply = some q) (hc : env.consume = some tag)
    (hm : js.marshalPedido pedido = some corpo) :
    publishes (Service1.handlePedido js env closed msgs body).ops =
      [BrokerOp.Publish "" "novo_pedido" false false
        { ContentType := "application/json", CorrelationId := env.uuid, ReplyTo := q,
          Body := corpo } env.publish] ∧
    publishes (ServicoPedido.handlePedido js env events body).ops =
      [BrokerOp.Publish "" "novo_pedido" false false
        { ContentType := "application/json", CorrelationId := env.uuid, ReplyTo := q,
          Body := corpo } env.publish] ∧
    (Service2.iteracao js db publishOk st (deliver (taskFor env.uuid q corpo))).ops =
      st.ops ++ [BrokerOp.Publish "" q false false
        { ContentType := "application/json", CorrelationId := env.uuid, ReplyTo := "",
          Body := js.marshalResposta
            (Service2.resposta js db (deliver (taskFor env.uuid q corpo))) }
        (publishOk st.ops.length)] ∧
    (ServicoConsulta.iteracao js db publishOk st (deliver (taskFor env.uuid q corpo))).ops =
      st.ops ++ [BrokerOp.Publish "" q false false
        { ContentType := "application/json", CorrelationId := env.uuid, ReplyTo := "",
          Body := js.marshalResposta
            (ServicoConsulta.resposta js db (deliver (taskFor env.uuid q corpo))) }
        (publishOk st.ops.length)] ∧
    (env.publish = true → ∀ pre rest : List Event,
      (∀ e ∈ pre, Event.decides env.uuid e = false) →
      (ServicoPedido.handlePedido js env
        (pre ++ Event.delivery (deliver
          { ContentType := "application/json", CorrelationId := env.uuid, ReplyTo := "",
            Body := js.marshalResposta
              (ServicoConsulta.resposta js db (deliver (taskFor env.uuid q corpo))) })
          :: rest) body).result =
        Result.wrote 200 (Body.json (js.unmarshalResposta (js.marshalResposta
          (ServicoConsulta.resposta js db (deliver (taskFor env.uuid q corpo))))).1)) ∧
    (env.publish = true → ∀ pre rest : List Delivery,
      (∀ m ∈ pre, m.CorrelationId ≠ env.uuid) →
      (Service1.handlePedido js env closed
        (pre ++ deliver
          { ContentType := "application/json", CorrelationId := env.uuid, ReplyTo := "",
            Body := js.marshalResposta
              (Service2.resposta js db (deliver (taskFor env.uuid q corpo))) }
          :: rest) body).result =
        if (js.unmarshalResposta (js.marshalResposta
            (Service2.resposta js db (deliver (taskFor env.uuid q corpo))))).2 = true then
          Result.wrote 500 (Body.text "Erro ao decodificar resposta")
        else
          Result.wrote 200 (Body.json (js.unmarshalResposta (js.marshalResposta
            (Service2.resposta js db (deliver (taskFor env.uuid q corpo))))).1)) := by
  refine ⟨?_, ?_, ?_, ?_, ?_, ?_⟩
  · rw [(service1_handlePedido_published js env closed msgs body pedido q tag corpo
      hd hw hq hc hm).1]
    simp [publishes, taskFor]
  · rw [(servicoPedido_handlePedido_published js env events body pedido q tag hd hq hc).1]
    simp [publishes, taskFor, hm]
  · rw [service2_iteracao_ops]
    simp [replyFor, deliver, taskFor]
  · rw [servicoConsulta_iteracao_ops]
    simp [replyFor, deliver, taskFor]
  · intro hp pre rest hpre
    rw [(servicoPedido_handlePedido_published js env _ body pedido q tag hd hq hc).2 hp,
      servicoPedido_esperar_eq, find_decides_append env.uuid pre _ hpre]
    simp [List.find?_cons, Event.decides, respond, deliver]
  · intro hp pre rest hpre
    rw [(service1_handlePedido_published js env closed _ body pedido q tag corpo
      hd hw hq hc hm).2 hp, service1_esperar_skip js env.uuid closed pre _ hpre]
    generalize js.marshalResposta
      (Service2.resposta js db (deliver (taskFor env.uuid q corpo))) = b
    cases hu : js.unmarshalResposta b with
    | mk v err =>
      cases err <;> simp [Service1.esperar, deliver, hu]

/-- Instance of C6 at `pedido1` in the run where every call succeeds: each handler
receives a delivery carrying another token and then the reply the worker published for
its task, and answers 200 with `resposta1`. -/
theorem correlation_round_trip_witness :
    jsonExemplo.decodePedido corpoPedido1 = some pedido1 ∧
    envExemplo.declareWork = true ∧ envExemplo.declareReply = some "amq.gen-1" ∧
    envExemplo.consume = some "ctag-1" ∧
    jsonExemplo.marshalPedido pedido1 = some corpoPedido1 ∧
    envExemplo.publish = true ∧
    (∀ e ∈ [Event.delivery entregaAlheia], Event.decides envExemplo.uuid e = false) ∧
    (ServicoPedido.handlePedido jsonExemplo envExemplo
      ([Event.delivery entregaAlheia] ++ Event.delivery (deliver
        { ContentType := "application/json", CorrelationId := envExemplo.uuid,
          ReplyTo := "",
          Body := jsonExemplo.marshalResposta
            (ServicoConsulta.resposta jsonExemplo dbExemplo
              (deliver (taskFor envExemplo.uuid "amq.gen-1" corpoPedido1))) })
        :: [Event.timeout]) corpoPedido1).result =
      Result.wrote 200 (Body.json (jsonExemplo.unmarshalResposta (jsonExemplo.marshalResposta
        (ServicoConsulta.resposta jsonExemplo dbExemplo
          (deliver (taskFor envExemplo.uuid "amq.gen-1" corpoPedido1))))).1) ∧
    (ServicoPedido.handlePedido jsonExemplo envExemplo
      [Event.delivery entregaAlheia, Event.delivery entrega1, Event.timeout]
      corpoPedido1).result = Result.wrote 200 (Body.json resposta1) ∧
    (Service1.handlePedido jsonExemplo envExemplo false [entregaAlheia, entrega1]
      corpoPedido1).result = Result.wrote 200 (Body.json resposta1) ∧
    deliver
      { ContentType := "application/json", CorrelationId := envExemplo.uuid, ReplyTo := "",
        Body := jsonExemplo.marshalResposta
          (ServicoConsulta.resposta jsonExemplo dbExemplo
            (deliver (taskFor envExemplo.uuid "amq.gen-1" corpoPedido1))) } = entrega1 :=
  ⟨by decide, by decide, by decide, by decide, by decide, by decide, by decide,
    (correlation_round_trip jsonExemplo envExemplo false [] [] corpoPedido1 pedido1
      "amq.gen-1" "ctag-1" corpoPedido1 dbExemplo (fun _ => true) WorkerState.init
      (by decide) (by decide) (by decide) (by decide) (by decide)).2.2.2.2.1 (by decide)
      [Event.delivery entregaAlheia] [Event.timeout] (by decide),
    by decide, by decide, by decide⟩

/-- C7: in both gateway handlers, in every run, each publish comes after a successful
`Consume` on the reply queue the published task names; and the run in which every call
succeeds does publish. -/
theorem listen_before_publish (js : Json) (env : Env) (closed : Bool)
    (msgs : List Delivery) (events : List Event) (body : String) :
    ListensBeforePublishing (Service1.handlePedido js env closed msgs body).ops ∧
    ListensBeforePublishing (ServicoPedido.handlePedido js env events body).ops ∧
    (Service1.handlePedido jsonExemplo envExemplo closed msgs corpoPedido1).ops =
      [BrokerOp.QueueDeclare "novo_pedido" true false false false (some "novo_pedido"),
        BrokerOp.QueueDeclare "" false true true false (some "amq.gen-1"),
        BrokerOp.Consume "amq.gen-1" "" true false false false (some "ctag-1"),
        BrokerOp.Publish "" "novo_pedido" false false
          (taskFor "token-1" "amq.gen-1" corpoPedido1) true] ∧
    (ServicoPedido.handlePedido jsonExemplo envExemplo events corpoPedido1).ops =
      [BrokerOp.QueueDeclare "" false true true false (some "amq.gen-1"),
        BrokerOp.Consume "amq.gen-1" "" true false false false (some "ctag-1"),
        BrokerOp.Publish "" "novo_pedido" false false
          (taskFor "token-1" "amq.gen-1" corpoPedido1) true] := by
  refine ⟨?_, ?_, ?_, ?_⟩
  · intro i exchange key mandatory immediate msg ok h
    rcases service1_handlePedido_ops js env closed msgs body with
      h0 | h0 | h0 | ⟨q, h0⟩ | ⟨q, t, h0⟩ | ⟨q, t, corpo, h0⟩
    · rw [h0] at h; simp at h
    · rw [h0] at h
      match i, h with
      | 0, h => simp at h
      | n + 1, h => simp at h
    · rw [h0] at h
      match i, h with
      | 0, h => simp at h
      | 1, h => simp at h
      | n + 2, h => simp at h
    · rw [h0] at h
      match i, h with
      | 0, h => simp at h
      | 1, h => simp at h
      | 2, h => simp at h
      | n + 3, h => simp at h
    · rw [h0] at h
      match i, h with
      | 0, h => simp at h
      | 1, h => simp at h
      | 2, h => simp at h
      | n + 3, h => simp at h
    · rw [h0] at h ⊢
      match i, h with
      | 0, h => simp at h
      | 1, h => simp at h
      | 2, h => simp at h
      | 3, h =>
        simp [taskFor] at h
        refine ⟨2, t, by omega, ?_⟩
        rw [← h.2.2.2.2.1]
        rfl
      | n + 4, h => simp at h
  · intro i exchange key mandatory immediate msg ok h
    rcases servicoPedido_handlePedido_ops js env events body with
      h0 | h0 | ⟨q, h0⟩ | ⟨q, t, corpo, h0⟩
    · rw [h0] at h; simp at h
    · rw [h0] at h
      match i, h with
      | 0, h => simp at h
      | n + 1, h => simp at h
    · rw [h0] at h
      match i, h with
      | 0, h => simp at h
      | 1, h => simp at h
      | n + 2, h => simp at h
    · rw [h0] at h ⊢
      match i, h with
      | 0, h => simp at h
      | 1, h => simp at h
      | 2, h =>
        simp [taskFor] at h
        refine ⟨1, t, by omega, ?_⟩
        rw [← h.2.2.2.2.1]
        rfl
      | n + 3, h => simp at h
  · exact (service1_handlePedido_published jsonExemplo envExemplo closed msgs corpoPedido1
      pedido1 "amq.gen-1" "ctag-1" corpoPedido1 (by decide) (by decide) (by decide)
      (by decide) (by decide)).1
  · exact (servicoPedido_handlePedido_published jsonExemplo envExemplo events corpoPedido1
      pedido1 "amq.gen-1" "ctag-1" (by decide) (by decide) (by decide)).1

/-! ## The reply consumer is never released -/

theorem ChannelState.step_QueueDeclare_consumers (s : ChannelState) (name : String)
    (durable autoDelete exclusive noWait : Bool) (result : Option String) :
    (s.step (BrokerOp.QueueDeclare name durable autoDelete exclusive noWait
      result)).consumers = s.consumers := by
  cases result with
  | none => rfl
  | some q =>
    simp only [ChannelState.step]
    split <;> rfl

theorem ChannelState.step_QueueDeclare_queues (s : ChannelState) (name : String)
    (durable autoDelete exclusive noWait : Bool) (q : String) :
    (s.step (BrokerOp.QueueDeclare name durable autoDelete exclusive noWait
      (some q))).queues.any (fun x => decide (x.1 = q)) = true := by
  simp only [ChannelState.step]
  split
  · assumption
  · simp

theorem ChannelState.after_started (s : ChannelState) (q tag : String)
    (pre post : List BrokerOp)
    (hpre : ∀ op ∈ pre, ∃ n d a e w r, op = BrokerOp.QueueDeclare n d a e w r)
    (hpost : ∀ op ∈ post, ∃ x k m i p ok, op = BrokerOp.Publish x k m i p ok) :
    (s.after (pre ++ BrokerOp.QueueDeclare "" false true true false (some q) ::
      BrokerOp.Consume q "" true false false false (some tag) :: post)).consumers =
        s.consumers ++ [(tag, q)] ∧
    (s.after (pre ++ BrokerOp.QueueDeclare "" false true true false (some q) ::
      BrokerOp.Consume q "" true false false false (some tag) :: post)).queues.any
        (fun x => decide (x.1 = q)) = true := by
  have hpub : ∀ (l : List BrokerOp) (t : ChannelState),
      (∀ op ∈ l, ∃ x k m i p ok, op = BrokerOp.Publish x k m i p ok) →
        t.after l = t := by
    intro l
    induction l with
    | nil => intro t _; rfl
    | cons op l ih =>
      intro t hl
      obtain ⟨x, k, m, i, p, ok, rfl⟩ := hl _ (List.mem_cons_self _ _)
      have : t.after (BrokerOp.Publish x k m i p ok :: l) = t.after l := rfl
      rw [this]
      exact ih t (fun o ho => hl o (List.mem_cons_of_mem _ ho))
  have hdecl : ∀ (l : List BrokerOp) (t : ChannelState),
      (∀ op ∈ l, ∃ n d a e w r, op = BrokerOp.QueueDeclare n d a e w r) →
        (t.after l).consumers = t.consumers := by
    intro l
    induction l with
    | nil => intro t _; rfl
    | cons op l ih =>
      intro t hl
      obtain ⟨n, d, a, e, w, r, rfl⟩ := hl _ (List.mem_cons_self _ _)
      have : t.after (BrokerOp.QueueDeclare n d a e w r :: l) =
          (t.step (BrokerOp.QueueDeclare n d a e w r)).after l := rfl
      rw [this, ih _ (fun o ho => hl o (List.mem_cons_of_mem _ ho)),
        ChannelState.step_QueueDeclare_consumers]
  have split : s.after (pre ++ BrokerOp.QueueDeclare "" false true true false (some q) ::
      BrokerOp.Consume q "" true false false false (some tag) :: post) =
      ((((s.after pre).step (BrokerOp.QueueDeclare "" false true true false (some q))).step
        (BrokerOp.Consume q "" true false false false (some tag))).after post) := by
    simp [ChannelState.after, List.foldl_append]
  rw [split, hpub post _ hpost]
  refine ⟨?_, ?_⟩
  · have h1 : (((s.after pre).step
        (BrokerOp.QueueDeclare "" false true true false (some q))).step
        (BrokerOp.Consume q "" true false false false (some tag))).consumers =
        ((s.after pre).step
          (BrokerOp.QueueDeclare "" false true true false (some q))).consumers ++
            [(tag, q)] := rfl
    rw [h1, ChannelState.step_QueueDeclare_consumers, hdecl pre s hpre]
  · exact ChannelState.step_QueueDeclare_queues (s.after pre) "" false true true false q

/-- C9, as stated, fails: neither handler cancels its consumer.  From a channel with no
queue and no consumer, a `servico-pedido` run ended by the matching reply, one ended by
the deadline and a `service1` run ended by the matching reply each leave the reply
queue and its consumer on the channel. -/
theorem reply_consumer_is_left_behind :
    (ServicoPedido.handlePedido jsonExemplo envExemplo [Event.delivery entrega1]
      corpoPedido1).result = Result.wrote 200 (Body.json resposta1) ∧
    ChannelState.after { queues := [], consumers := [] }
      (ServicoPedido.handlePedido jsonExemplo envExemplo [Event.delivery entrega1]
        corpoPedido1).ops =
      { queues := [("amq.gen-1", true)], consumers := [("ctag-1", "amq.gen-1")] } ∧
    (ServicoPedido.handlePedido jsonExemplo envExemplo [Event.timeout]
      corpoPedido1).result =
        Result.wrote 504 (Body.text "Timeout esperando resposta do serviço") ∧
    ChannelState.after { queues := [], consumers := [] }
      (ServicoPedido.handlePedido jsonExemplo envExemplo [Event.timeout] corpoPedido1).ops =
      { queues := [("amq.gen-1", true)], consumers := [("ctag-1", "amq.gen-1")] } ∧
    (Service1.handlePedido jsonExemplo envExemplo false [entrega1] corpoPedido1).result =
      Result.wrote 200 (Body.json resposta1) ∧
    ChannelState.after { queues := [], consumers := [] }
      (Service1.handlePedido jsonExemplo envExemplo false [entrega1] corpoPedido1).ops =
      { queues := [("novo_pedido", false), ("amq.gen-1", true)],
        consumers := [("ctag-1", "amq.gen-1")] } ∧
    ¬ (ChannelState.after { queues := [], consumers := [] }
      (ServicoPedido.handlePedido jsonExemplo envExemplo [Event.delivery entrega1]
        corpoPedido1).ops).consumers =
      ({ queues := [], consumers := [] } : ChannelState).consumers ∧
    ChannelState.after
      { queues := [("amq.gen-1", true)], consumers := [("ctag-1", "amq.gen-1")] }
      [BrokerOp.Cancel "ctag-1" false] = { queues := [], consumers := [] } := by
  decide

/-- C9, amended: a gateway handler that has started its reply consumer issues no
operation that releases a consumer or a queue, however the run ends; the consumer it
started stays registered on the shared channel, so after the run the channel has the
consumers it had before and that one more, and the reply queue is still declared. -/
theorem reply_consumer_never_cancelled (js : Json) (env : Env) (closed : Bool)
    (msgs : List Delivery) (events : List Event) (body : String) (pedido : Pedido)
    (q tag : String) (s : ChannelState)
    (hd : js.decodePedido body = some pedido) (hw : env.declareWork = true)
    (hq : env.declareReply = some q) (hc : env.consume = some tag) :
    ((∀ op ∈ (Service1.handlePedido js env closed msgs body).ops, op.releases = false) ∧
      (s.after (Service1.handlePedido js env closed msgs body).ops).consumers =
        s.consumers ++ [(tag, q)] ∧
      (s.after (Service1.handlePedido js env closed msgs body).ops).queues.any
        (fun x => decide (x.1 = q)) = true) ∧
    ((∀ op ∈ (ServicoPedido.handlePedido js env events body).ops, op.releases = false) ∧
      (s.after (ServicoPedido.handlePedido js env events body).ops).consumers =
        s.consumers ++ [(tag, q)] ∧
      (s.after (ServicoPedido.handlePedido js env events body).ops).queues.any
        (fun x => decide (x.1 = q)) = true) := by
  refine ⟨?_, ?_⟩
  · have shape : ∃ post : List BrokerOp,
        (∀ op ∈ post, ∃ x k m i p ok, op = BrokerOp.Publish x k m i p ok) ∧
        (Service1.handlePedido js env closed msgs body).ops =
          [BrokerOp.QueueDeclare "novo_pedido" true false false false (some "novo_pedido")]
            ++ BrokerOp.QueueDeclare "" false true true false (some q) ::
              BrokerOp.Consume q "" true false false false (some tag) :: post := by
      cases hm : js.marshalPedido pedido with
      | none =>
        refine ⟨[], by simp, ?_⟩
        unfold Service1.handlePedido
        simp [hd, hw, hq, hc, hm]
      | some corpo =>
        refine ⟨[BrokerOp.Publish "" "novo_pedido" false false (taskFor env.uuid q corpo)
          env.publish], ?_, ?_⟩
        · intro op hop
          simp only [List.mem_singleton] at hop
          exact ⟨_, _, _, _, _, _, hop⟩
        · rw [(service1_handlePedido_published js env closed msgs body pedido q tag corpo
            hd hw hq hc hm).1]
          rfl
    obtain ⟨post, hpost, hops⟩ := shape
    rw [hops]
    refine ⟨?_, ChannelState.after_started s q tag _ post ?_ hpost⟩
    · intro op hop
      simp only [List.singleton_append, List.mem_cons] at hop
      rcases hop with rfl | rfl | rfl | hop
      · rfl
      · rfl
      · rfl
      · obtain ⟨x, k, m, i, p, ok, rfl⟩ := hpost op hop
        rfl
    · intro op hop
      simp only [List.mem_singleton] at hop
      exact ⟨_, _, _, _, _, _, hop⟩
  · have hops := (servicoPedido_handlePedido_published js env events body pedido q tag
      hd hq hc).1
    rw [hops]
    refine ⟨?_, ?_⟩
    · intro op hop
      simp only [List.mem_cons, List.mem_singleton] at hop
      rcases hop with rfl | rfl | rfl | hop
      · rfl
      · rfl
      · rfl
      · simp at hop
    · exact ChannelState.after_started s q tag []
        [BrokerOp.Publish "" "novo_pedido" false false
          (taskFor env.uuid q ((js.marshalPedido pedido).getD "")) env.publish]
        (by simp) (by
          intro op hop
          simp only [List.mem_singleton] at hop
          exact ⟨_, _, _, _, _, _, hop⟩)

/-- Instance of the amended C9 on a channel that already has one consumer. -/
theorem reply_consumer_never_cancelled_witness :
    jsonExemplo.decodePedido corpoPedido1 = some pedido1 ∧
    envExemplo.declareWork = true ∧ envExemplo.declareReply = some "amq.gen-1" ∧
    envExemplo.consume = some "ctag-1" ∧
    (({ queues := [], consumers := [("ctag-0", "amq.gen-0")] } : ChannelState).after
      (ServicoPedido.handlePedido jsonExemplo envExemplo [Event.timeout]
        corpoPedido1).ops).consumers =
      ({ queues := [], consumers := [("ctag-0", "amq.gen-0")] } : ChannelState).consumers ++
        [("ctag-1", "amq.gen-1")] :=
  ⟨by decide, by decide, by decide, by decide,
    (reply_consumer_never_cancelled jsonExemplo envExemplo false [] [Event.timeout]
      corpoPedido1 pedido1 "amq.gen-1" "ctag-1"
      { queues := [], consumers := [("ctag-0", "amq.gen-0")] }
      (by decide) (by decide) (by decide) (by decide)).2.2.1⟩
